import Mathlib

/-!
Verification of the lakeshore350-python temperature-controller core.

The Python sources are shallowly embedded in Lean:
* device responses are `Option String` (`none` models `send_command`
  returning `None` after a communication failure or an empty read);
* Python floats are modelled by `ℚ`; `float(...)` / `int(...)` on plain
  decimal literals are modelled by `pyFloat` / `pyInt` (exponent notation
  and `inf`/`nan` literals are not modelled — no claim depends on them);
* functions that send serial commands additionally return the list of
  commands they issued, so that theorems can speak about which commands
  reach the device.
-/

attribute [local semireducible] Rat.mul Rat.add Rat.sub Rat.inv Rat.ofScientific

namespace Lakeshore

/-- Model of Python's `str.upper` on a single ASCII character. -/
def pyCharUpper (c : Char) : Char :=
  if 'a' ≤ c && c ≤ 'z' then Char.ofNat (c.toNat - 32) else c

/-- Model of Python's `str.upper` (ASCII). -/
def pyUpper (s : String) : String :=
  String.mk (s.data.map pyCharUpper)

/-- Numeric value of a list of decimal digit characters. -/
def digitsVal (ds : List Char) : ℕ :=
  ds.foldl (fun acc c => 10 * acc + (c.toNat - 48)) 0

/-- Optional leading sign of a Python numeric literal. -/
def parseSign : List Char → ℤ × List Char
  | '+' :: rest => (1, rest)
  | '-' :: rest => (-1, rest)
  | l => (1, l)

/-- Model of Python's `int(str)` on plain decimal literals:
an optional sign followed by at least one digit and nothing else. -/
def pyIntChars (l : List Char) : Option ℤ :=
  let p := parseSign l
  let d1 := p.2.takeWhile Char.isDigit
  let l2 := p.2.dropWhile Char.isDigit
  if d1.isEmpty || !l2.isEmpty then none
  else some (p.1 * (digitsVal d1 : ℤ))

/-- Model of Python's `int(str)` on plain decimal literals. -/
def pyInt (s : String) : Option ℤ := pyIntChars s.data

/-- Model of Python's `float(str)` on plain decimal literals:
optional sign, digits with an optional fractional part, nothing else. -/
def pyFloatChars (l : List Char) : Option ℚ :=
  let p := parseSign l
  let d1 := p.2.takeWhile Char.isDigit
  let l2 := p.2.dropWhile Char.isDigit
  match l2 with
  | [] =>
    if d1.isEmpty then none
    else some ((p.1 : ℚ) * (digitsVal d1 : ℚ))
  | '.' :: l3 =>
    let d2 := l3.takeWhile Char.isDigit
    let l4 := l3.dropWhile Char.isDigit
    if (d1.isEmpty && d2.isEmpty) || !l4.isEmpty then none
    else some ((p.1 : ℚ) *
      ((digitsVal d1 : ℚ) + (digitsVal d2 : ℚ) / (10 : ℚ) ^ d2.length))
  | _ => none

/-- Model of Python's `float(str)` on plain decimal literals. -/
def pyFloat (s : String) : Option ℚ := pyFloatChars s.data

/-- `containsSub needle hay` models Python's `needle in hay` on strings. -/
def containsSub (needle : List Char) : List Char → Bool
  | [] => needle.isEmpty
  | c :: t => needle.isPrefixOf (c :: t) || containsSub needle t

/-- Result of a `TemperatureReader` read (`temperature.py`): a parsed float,
one of the sentinel strings `"T_OVER"` / `"R_OVER"` / `"NO_RESPONSE"`, or the
raw response string returned for debugging. -/
inductive Reading where
  | value (q : ℚ)
  | tOver
  | rOver
  | noResponse
  | raw (s : String)
  deriving DecidableEq

/-- The `input_or_channel` argument of the reader methods: either a Python
string (inputs `'A'`..`'D'`, special inputs `'D2'`..`'D5'`) or an int
(channels 1-8). -/
inductive PyInput where
  | str (s : String)
  | nat (n : ℕ)
  deriving DecidableEq

/-- An oracle modelling `TemperatureReader.send_command`
(`temperature.py:74-107`): `none` when the device communication fails or the
read line is empty (the source swallows the exception and returns `None`),
`some r` for the decoded, stripped response line (possibly `""` when the
line held only whitespace). -/
def SerialOracle : Type := String → Option String

/-- Channel identifier used by `read_resistance` (`temperature.py:129-133`):
input letters are uppercased, everything else passes through (numbers print
in decimal via the f-string). -/
def srdgChannelIdentifier : PyInput → String
  | .str s => if ["A", "B", "C", "D"].contains (pyUpper s) then pyUpper s else s
  | .nat n => toString n

/-- Channel identifier used by `read_temperature` (`temperature.py:246-256`):
input `D` maps to channel `4` (the 3-pump), other input letters are
uppercased, and everything else is passed through `str(...)`. -/
def tempChannelIdentifier : PyInput → String
  | .str s =>
    if ["A", "B", "C", "D"].contains (pyUpper s) then
      if pyUpper s = "D" then "4" else pyUpper s
    else s
  | .nat n => toString n

/-- The special GL7 dispatch of `read_temperature` (`temperature.py:243`):
inputs `A` and `C` (in either case) are the 3-head/4-head channels. -/
def isHeadInput : PyInput → Bool
  | .str s => ["A", "C"].contains (pyUpper s)
  | .nat _ => false

/-- Over-range detection on the response text (`temperature.py:143,183,279`):
length above 15, a backtick (char 96) or a null byte. -/
def corruptResponse (r : String) : Bool :=
  decide (r.length > 15) || r.data.contains (Char.ofNat 96) ||
    r.data.contains (Char.ofNat 0)

/-- Text-based over-range indicators (`temperature.py:150-152` etc.):
`any(indicator in response.upper() for indicator in inds)`. -/
def overIndicator (inds : List String) (r : String) : Bool :=
  inds.any (fun i => containsSub i.data (pyUpper r).data)

/-- The status check of `read_temperature` (`temperature.py:258-269`):
query `RDGST?`, and when the response is truthy and parses as an int,
report over-range iff bit 5 (value 32) is set; a parse failure is ignored. -/
def statusSaysOver (oracle : SerialOracle) (ch : String) : Bool :=
  match oracle ("RDGST? " ++ ch) with
  | some s =>
    if s = "" then false
    else
      match pyInt s with
      | some n => decide (Int.land n 32 ≠ 0)
      | none => false
  | none => false

/-- Embedding of `TemperatureReader.read_resistance` (`temperature.py:109-153`),
returning the reading together with the serial commands issued. -/
def read_resistance (oracle : SerialOracle) (inp : PyInput) :
    Reading × List String :=
  let cmd := "SRDG? " ++ srdgChannelIdentifier inp
  let result :=
    match oracle cmd with
    | none => Reading.noResponse
    | some r =>
      if r = "" then Reading.noResponse
      else if corruptResponse r then Reading.rOver
      else
        match pyFloat r with
        | some q => Reading.value q
        | none =>
          if overIndicator ["OVER", "R.", "R_"] r then Reading.rOver
          else Reading.raw r
  (result, [cmd])

/-- Embedding of `TemperatureReader.read_temperature` (`temperature.py:195-296`),
returning the reading together with the serial commands issued. Inputs `A`/`C`
dispatch to `read_resistance`; otherwise a `RDGST?` status query comes first
and a set status bit 5 short-circuits to `T_OVER`; then the `KRDG?` payload is
parsed, with a `0.0` reading on special inputs `D2`-`D5` also `T_OVER`. -/
def read_temperature (oracle : SerialOracle) (inp : PyInput) :
    Reading × List String :=
  if isHeadInput inp then read_resistance oracle inp
  else
    let ch := tempChannelIdentifier inp
    if statusSaysOver oracle ch then (Reading.tOver, ["RDGST? " ++ ch])
    else
      let cmd := "KRDG? " ++ ch
      let result :=
        match oracle cmd with
        | none => Reading.noResponse
        | some r =>
          if r = "" then Reading.noResponse
          else if corruptResponse r then Reading.tOver
          else
            match pyFloat r with
            | some q =>
              if q = 0 && ["D2", "D3", "D4", "D5"].contains (pyUpper ch) then
                Reading.tOver
              else Reading.value q
            | none =>
              if overIndicator ["OVER", "T.", "T_"] r then Reading.tOver
              else Reading.raw r
      (result, ["RDGST? " ++ ch, cmd])

/-- Insertion of a (raw, temperature) pair into a list sorted in Python's
tuple order (lexicographic: raw first, temperature breaking ties), as
produced by `sorted(zip(...))` in `head4_calibration.py:60`. -/
def insertPair (a : ℚ × ℚ) : List (ℚ × ℚ) → List (ℚ × ℚ)
  | [] => [a]
  | b :: bs =>
    if a.1 < b.1 || (a.1 = b.1 && a.2 ≤ b.2) then a :: b :: bs
    else b :: insertPair a bs

/-- Sorting of (raw, temperature) pairs ascending by raw value, modelling
`sorted(...)` in `head4_calibration.py:60`, `np.argsort` in
`head3_calibration.py:60` and the sort `scipy.interpolate.interp1d`
performs internally for `pumps_calibration.py:30`. Ties in the raw value are
ordered by temperature; the sources' sorts agree with this whenever the raw
values are distinct. -/
def sortPairs : List (ℚ × ℚ) → List (ℚ × ℚ)
  | [] => []
  | a :: rest => insertPair a (sortPairs rest)

/-- Piecewise-linear interpolation over points sorted ascending in the first
component, modelling `scipy.interpolate.interp1d(..., kind='linear')`
evaluated at `x`. Outside the grid it extrapolates linearly from the first
or last segment (the behaviour of `fill_value='extrapolate'` in
`head4_calibration.py:64-70`); callers with a clamping fill value guard the
out-of-range cases themselves in `interpFill`. -/
def interpPts : List (ℚ × ℚ) → ℚ → ℚ
  | [], _ => 0
  | [(_, y0)], _ => y0
  | (x0, y0) :: (x1, y1) :: rest, x =>
    if x ≤ x1 || rest.isEmpty then y0 + (x - x0) * (y1 - y0) / (x1 - x0)
    else interpPts ((x1, y1) :: rest) x

/-- Linear interpolation with a constant fill value below/above the grid,
modelling `interp1d(..., bounds_error=False, fill_value=(lo, hi))` as used
by `head3_calibration.py:65-71` and `pumps_calibration.py:30`. -/
def interpFill (pts : List (ℚ × ℚ)) (lo hi : ℚ) (x : ℚ) : ℚ :=
  match pts, pts.getLast? with
  | (x0, _) :: _, some (xl, _) =>
    if x < x0 then lo else if xl < x then hi else interpPts pts x
  | _, _ => lo

/-- Embedding of `FourHeadCalibration` (`head4_calibration.py`): the
constructor's `_create_interpolator` (lines 54-76, raising when fewer than 2
calibration points survive loading) fused with
`convert_resistance_to_temperature` (lines 78-102). `Except.error` models a
raised `ValueError`; note that a non-positive resistance RAISES
(`head4_calibration.py:91-92`) instead of returning a sentinel. The
interpolator is `interp1d` over `sorted(zip(resistances, temperatures))`
with `fill_value='extrapolate'`. -/
def convert_resistance_to_temperature (temperatures resistances : List ℚ)
    (resistance : ℚ) : Except String ℚ :=
  if temperatures.length < 2 then
    Except.error "Not enough calibration data points"
  else if resistance ≤ 0 then
    Except.error "Resistance must be a positive number"
  else
    Except.ok (interpPts (sortPairs (resistances.zip temperatures)) resistance)

/-- Embedding of `ThreeHeadCalibration.resistance_to_temperature`
(`head3_calibration.py:76-86`) together with the interpolator construction of
`load_calibration_file` (lines 58-71): `none` models the `interpolator is
None` case (calibration file missing or `interp1d` creation failed, which
happens with fewer than 2 points). There is no positivity check: every other
input is interpolated, clamped to the first/last sorted temperature
(`fill_value=(sorted_temperatures[0], sorted_temperatures[-1])`). -/
def resistance_to_temperature (temperatures resistances : List ℚ)
    (resistance : ℚ) : Option ℚ :=
  if temperatures.length < 2 then none
  else
    let pts := sortPairs (resistances.zip temperatures)
    some (interpFill pts ((pts.headD (0, 0)).2) ((pts.getLastD (0, 0)).2)
      resistance)

/-- Embedding of `voltage_to_temperature` (`pumps_calibration.py:33-37`): a
non-positive (or non-numeric) voltage returns the `None` sentinel, otherwise
the pump table interpolates with fill values taken from the FIRST and LAST
temperature in file order (`pumps_calibration.py:30`,
`fill_value=(self.temperatures[0], self.temperatures[-1])`); `interp1d`
sorts the grid internally (`assume_sorted` defaults to `False`). -/
def voltage_to_temperature (temperatures voltages : List ℚ) (voltage : ℚ) :
    Option ℚ :=
  if voltage ≤ 0 then none
  else
    some (interpFill (sortPairs (voltages.zip temperatures))
      (temperatures.headD 0) (temperatures.getLastD 0) voltage)

/-- Embedding of the 4He-head calibrated-read branch of GL7 step 3
(`gl7/step3_pump_heating.py:73-80`): only a float reading strictly above 0
is converted — by a single application of
`convert_4head_resistance_to_temperature`, i.e. of the calibration
interpolator — and everything else becomes `None`. -/
def step3_head_calibrated (temperatures resistances : List ℚ) :
    Reading → Option (Except String ℚ)
  | Reading.value r =>
    if 0 < r then some (convert_resistance_to_temperature temperatures resistances r)
    else none
  | _ => none

/-- Decidable equality for `Except`, so concrete calibration results can be
settled by `decide`. -/
instance {α β : Type} [DecidableEq α] [DecidableEq β] :
    DecidableEq (Except α β) := fun a b =>
  match a, b with
  | .ok x, .ok y =>
    if h : x = y then .isTrue (by rw [h]) else .isFalse (by simp [h])
  | .error x, .error y =>
    if h : x = y then .isTrue (by rw [h]) else .isFalse (by simp [h])
  | .ok _, .error _ => .isFalse (by simp)
  | .error _, .ok _ => .isFalse (by simp)

/-- Structured form of the serial commands sent by the heater controller and
the GL7 sequence. The wire format is the f-string shown in the source:
`outmode out mode inp pup` is `"OUTMODE {out},{mode},{inp},{pup}"`,
`mout out level` is `"MOUT {out},{level}"`, and the query constructors are
`"OUTMODE? n"`, `"MOUT? n"`, `"KRDG? n"`, `"RELAY? n"`, `"RELAYST? n"`,
`"ANALOG? n"`. -/
inductive HCmd where
  | outmode (out mode inp pup : ℕ)
  | mout (out : ℕ) (level : ℚ)
  | outmodeQ (out : ℕ)
  | moutQ (out : ℕ)
  | krdgQ (ch : ℕ)
  | relayQ (n : ℕ)
  | relaystQ (n : ℕ)
  | analogQ (n : ℕ)
  deriving DecidableEq

/-- A command is a pure query: it only reads device state. -/
def HCmd.isQuery : HCmd → Bool
  | .outmode _ _ _ _ => false
  | .mout _ _ => false
  | _ => true

/-- An oracle for the `GL7Controller.send_command` function (which is
`TemperatureReader.send_command`, `temperature.py:74-107`): `none` models a
communication failure — the source catches the exception, prints, and
returns `None` — or an empty read. -/
def HOracle : Type := HCmd → Option String

/-- Modelled from the spec: the Lake Shore 350 hardware itself is not part of
the repository. Per the spec's command vocabulary (§6) and the comments in
`heaters.py`, the level-set command `MOUT o,p` sets output `o`'s manual power
to `p` percent, the mode-set command `OUTMODE o,m,...` sets output `o`'s
control mode to `m`, and query commands change nothing. -/
@[ext]
structure Device where
  moutLevel : ℕ → ℚ
  outMode : ℕ → ℕ

/-- Modelled from the spec: effect of one command on the device (§6 command
vocabulary; queries are read-only). -/
def Device.apply (d : Device) : HCmd → Device
  | .outmode out m _ _ =>
    { d with outMode := fun o => if o = out then m else d.outMode o }
  | .mout out p =>
    { d with moutLevel := fun o => if o = out then p else d.moutLevel o }
  | _ => d

/-- Modelled from the spec: effect of a command sequence on the device. -/
def Device.applyAll (d : Device) (cs : List HCmd) : Device :=
  cs.foldl Device.apply d

/-- Embedding of `HeaterController.set_heater_mode_and_power`
(`heaters.py:50-103`): sends `OUTMODE out,mode,0,0` then `MOUT out,power`
and returns `True`. There is NO validation of `power_percent`. The
`except` branch returning `False` is unreachable in this model because
`send_command` itself catches every exception and returns `None`
(`temperature.py:96-107`), and both return values are discarded. -/
def set_heater_mode_and_power (oracle : HOracle) (output_num : ℕ)
    (power_percent : ℚ) (mode : ℕ) : Bool × List HCmd :=
  let c1 := HCmd.outmode output_num mode 0 0
  let _r1 := oracle c1
  let c2 := HCmd.mout output_num power_percent
  let _r2 := oracle c2
  (true, [c1, c2])

/-- Embedding of `HeaterController.turn_off_heater` (`heaters.py:105-137`):
sends only `MOUT out,0.0` — the mode is left unchanged — and returns `True`
(the `except` branch is unreachable as in `set_heater_mode_and_power`). -/
def turn_off_heater (oracle : HOracle) (output_num : ℕ) : Bool × List HCmd :=
  let c := HCmd.mout output_num 0
  let _r := oracle c
  (true, [c])

/-- Modelled from the spec: `GL7Controller.query_heater_output_status` is
called from `heaters.py:167` and the GL7 steps but is defined nowhere in the
repository source; per `heaters.py:150-152` ("Serial Commands Used:
OUTMODE? <output>, MOUT? <output>") and spec §4.3 `query_status`, it issues
the two status queries and returns their responses. -/
def query_heater_output_status (oracle : HOracle) (out : ℕ) :
    (Option String × Option String) × List HCmd :=
  ((oracle (HCmd.outmodeQ out), oracle (HCmd.moutQ out)),
    [HCmd.outmodeQ out, HCmd.moutQ out])

/-- Commands issued by `HeaterController.query_heater_status`
(`heaters.py:139-182`), which wraps `query_heater_output_status`. -/
def query_heater_status_cmds (oracle : HOracle) (out : ℕ) : List HCmd :=
  (query_heater_output_status oracle out).2

/-- Embedding of `HeaterController.emergency_stop_all_heaters`
(`heaters.py:203-245`): turn off heater 1, then heater 2, then confirm via
`query_all_heaters` (`heaters.py:184-201`, which queries outputs 1 and 2);
returns `all(success_list)`. -/
def emergency_stop_all_heaters (oracle : HOracle) : Bool × List HCmd :=
  let r1 := turn_off_heater oracle 1
  let r2 := turn_off_heater oracle 2
  let q := query_heater_status_cmds oracle 1 ++ query_heater_status_cmds oracle 2
  (r1.1 && r2.1, r1.2 ++ r2.2 ++ q)

/-- The power-range validation of the CLI entry points: `heaters.py:328-329`
(`parser.error` when `power < 0 or power > 100`) and `main.py:334-336`
(print an error and return). Rejection happens before any command is sent. -/
def cli_power_rejected (p : ℚ) : Bool :=
  decide (p < 0) || decide (p > 100)

/-- The input-letter-to-channel map of `GL7Controller.read_temperature`
(`gl7_control.py:20-24`). -/
def gl7_input_map (s : String) : Option ℕ :=
  if pyUpper s = "A" then some 1
  else if pyUpper s = "B" then some 2
  else if pyUpper s = "C" then some 3
  else if pyUpper s = "D" then some 4
  else none

/-- Embedding of `GL7Controller.read_temperature` (`gl7_control.py:20-33`):
sends `KRDG? n` for a mapped input letter and parses the response as a
float. The sequence only ever branches on `isinstance(temp, float)`, so the
non-float outcomes (`None`, `"T_OVER"`, unparseable text) are collapsed to
`none` here. -/
def gl7_read_temperature (oracle : HOracle) (s : String) :
    Option ℚ × List HCmd :=
  match gl7_input_map s with
  | some n =>
    let cmd := HCmd.krdgQ n
    let v :=
      match oracle cmd with
      | some r => if r ≠ "" && r ≠ "T_OVER" then pyFloat r else none
      | none => none
    (v, [cmd])
  | none => (none, [])

/-- Commands of `GL7Controller.query_relay_status` (`gl7_control.py:35-39`):
`RELAY? n` then `RELAYST? n`. -/
def query_relay_status_cmds (n : ℕ) : List HCmd :=
  [HCmd.relayQ n, HCmd.relaystQ n]

/-- Stage 2 of `start_gl7_sequence` (`gl7_control.py:92-105`): up to three
pre-cooling checks of input A, breaking once the reading is a float ≤ 10. -/
def stage2_loop (oracle : HOracle) : ℕ → List HCmd
  | 0 => []
  | k + 1 =>
    let r := gl7_read_temperature oracle "A"
    r.2 ++
      match r.1 with
      | some q => if q ≤ 10 then [] else stage2_loop oracle k
      | none => stage2_loop oracle k

/-- Stage 4 of `start_gl7_sequence` (`gl7_control.py:149-159`): up to five
monitoring rounds reading inputs A and B, breaking once A reads ≤ 4. -/
def stage4_loop (oracle : HOracle) : ℕ → List HCmd
  | 0 => []
  | k + 1 =>
    let ra := gl7_read_temperature oracle "A"
    let rb := gl7_read_temperature oracle "B"
    ra.2 ++ rb.2 ++
      match ra.1 with
      | some q => if q ≤ 4 then [] else stage4_loop oracle k
      | none => stage4_loop oracle k

/-- Stage 6 of `start_gl7_sequence` (`gl7_control.py:193-203`): up to three
rounds reading inputs A and B, breaking once B reads ≤ 2. -/
def stage6_loop (oracle : HOracle) : ℕ → List HCmd
  | 0 => []
  | k + 1 =>
    let ra := gl7_read_temperature oracle "A"
    let rb := gl7_read_temperature oracle "B"
    ra.2 ++ rb.2 ++
      match rb.1 with
      | some q => if q ≤ 2 then [] else stage6_loop oracle k
      | none => stage6_loop oracle k

/-- Stage 8 of `start_gl7_sequence` (`gl7_control.py:236-251`): up to three
rounds reading inputs A, B and C, breaking once C reads < 0.5. -/
def stage8_loop (oracle : HOracle) : ℕ → List HCmd
  | 0 => []
  | k + 1 =>
    let ra := gl7_read_temperature oracle "A"
    let rb := gl7_read_temperature oracle "B"
    let rc := gl7_read_temperature oracle "C"
    ra.2 ++ rb.2 ++ rc.2 ++
      match rc.1 with
      | some q => if q < 1 / 2 then [] else stage8_loop oracle k
      | none => stage8_loop oracle k

/-- Embedding of `GL7Controller.start_gl7_sequence` (`gl7_control.py:46-294`)
as the serial commands it issues and its return value. All heater/switch
actuation commands (`RELAY n,m`, `ANALOG ...`) are commented out in the
source, so every command the sequence actually sends is a query; it always
returns `True`. -/
def start_gl7_sequence (oracle : HOracle) : Bool × List HCmd :=
  let s1 := (gl7_read_temperature oracle "A").2 ++
    (gl7_read_temperature oracle "B").2 ++ (gl7_read_temperature oracle "C").2 ++
    query_relay_status_cmds 1 ++ query_relay_status_cmds 2 ++
    [HCmd.analogQ 3, HCmd.analogQ 4]
  let s2 := stage2_loop oracle 3
  let s3 := (gl7_read_temperature oracle "A").2
  let s4 := stage4_loop oracle 5
  let s6 := stage6_loop oracle 3
  let s8 := stage8_loop oracle 3
  let s9 := (gl7_read_temperature oracle "A").2 ++
    (gl7_read_temperature oracle "B").2 ++ (gl7_read_temperature oracle "C").2 ++
    query_relay_status_cmds 1 ++ query_relay_status_cmds 2 ++
    [HCmd.analogQ 3, HCmd.analogQ 4]
  (true, s1 ++ s2 ++ s3 ++ s4 ++ s6 ++ s8 ++ s9)

/-- Commands sent by the `KeyboardInterrupt` handler of `--start-gl7` in
`main.py:149-151`: it only prints "GL7 sequence aborted by user" and
"All systems remain in their current state" — no command at all, and in
particular no call to `emergency_stop_all_heaters`. -/
def gl7_abort_handler_cmds : List HCmd := []

/-- An aborted `--start-gl7` run (`main.py:143-151`): the operator's
`KeyboardInterrupt` cuts the sequence after some prefix of its commands,
then the handler runs. -/
def gl7_run_aborted (oracle : HOracle) (k : ℕ) : List HCmd :=
  (start_gl7_sequence oracle).2.take k ++ gl7_abort_handler_cmds

/-- A heater-side transport on which every command hits a communication
failure (`send_command` returns `None` throughout). -/
def oracle0 : HOracle := fun _ => none

/-- A transport on which the mode-set command is delivered (the device line
read yields an empty acknowledgement) but the level-set `MOUT` write hits a
communication error, which `send_command` (`temperature.py:96-107`) swallows
by returning `None`. -/
def level_set_fail_oracle : HOracle
  | HCmd.mout _ _ => none
  | _ => some ""

/-- A device snapshot whose heater output 1 is at 75 % manual power. -/
def d75 : Device := ⟨fun o => if o = 1 then 75 else 0, fun _ => 3⟩

/-- A device snapshot whose outputs are at 20 % power in control mode 5. -/
def dMode5 : Device := ⟨fun _ => 20, fun _ => 5⟩

/-- A device snapshot whose outputs are at 20 % power in open-loop mode 3. -/
def dMode3 : Device := ⟨fun _ => 20, fun _ => 3⟩

/-- A serial transport whose status response for channel 4 is `"32"` (bit 5
set) and whose Kelvin responses look numerically valid. -/
def oracle_status32 : SerialOracle := fun c =>
  if c = "RDGST? 4" then some "32" else some "12.3"

/-- A serial transport on which special input D3 reports a clean status and
a Kelvin payload of exactly `0.0`. -/
def oracle_d3_zero : SerialOracle := fun c =>
  if c = "RDGST? D3" then some "0" else
  if c = "KRDG? D3" then some "0.0" else none

/-- A serial transport on which the 4-head input C answers its resistance
query with `1075.0`. -/
def oracle_head_c : SerialOracle := fun c =>
  if c = "SRDG? C" then some "1075.0" else none

/-- A query command leaves the device unchanged. -/
theorem Device.apply_of_isQuery (d : Device) {c : HCmd}
    (h : c.isQuery = true) : d.apply c = d := by
  cases c <;> first | rfl | simp [HCmd.isQuery] at h

/-- A sequence of query commands leaves the device unchanged. -/
theorem Device.applyAll_of_queries {cs : List HCmd}
    (h : ∀ c ∈ cs, c.isQuery = true) (d : Device) :
    d.applyAll cs = d := by
  induction cs generalizing d with
  | nil => rfl
  | cons c rest ih =>
    have hc : c.isQuery = true := h c (List.mem_cons_self c rest)
    have h2 : ∀ x ∈ rest, x.isQuery = true :=
      fun x hx => h x (List.mem_cons_of_mem c hx)
    calc Device.applyAll d (c :: rest) = Device.applyAll (d.apply c) rest := rfl
      _ = Device.applyAll d rest := by rw [Device.apply_of_isQuery d hc]
      _ = d := ih h2 d

/-- `GL7Controller.read_temperature` only issues a Kelvin query. -/
theorem gl7_read_temperature_queries (oracle : HOracle) (s : String) :
    ∀ c ∈ (gl7_read_temperature oracle s).2, c.isQuery = true := by
  intro c hc
  unfold gl7_read_temperature at hc
  rcases h : gl7_input_map s with - | n <;> rw [h] at hc <;> simp at hc
  subst hc; rfl

/-- The stage-2 monitoring loop only issues queries. -/
theorem stage2_loop_queries (oracle : HOracle) :
    ∀ k, ∀ c ∈ stage2_loop oracle k, c.isQuery = true := by
  intro k
  induction k with
  | zero => intro c hc; simp [stage2_loop] at hc
  | succ k ih =>
    intro c hc
    rw [stage2_loop, List.mem_append] at hc
    rcases hc with hc | hc
    · exact gl7_read_temperature_queries oracle "A" c hc
    · revert hc
      rcases (gl7_read_temperature oracle "A").1 with - | q
      · exact ih c
      · by_cases hq : q ≤ 10
        · simp [hq]
        · simp only [hq, if_false]; exact ih c

/-- The stage-4 monitoring loop only issues queries. -/
theorem stage4_loop_queries (oracle : HOracle) :
    ∀ k, ∀ c ∈ stage4_loop oracle k, c.isQuery = true := by
  intro k
  induction k with
  | zero => intro c hc; simp [stage4_loop] at hc
  | succ k ih =>
    intro c hc
    rw [stage4_loop, List.append_assoc, List.mem_append, List.mem_append] at hc
    rcases hc with hc | hc | hc
    · exact gl7_read_temperature_queries oracle "A" c hc
    · exact gl7_read_temperature_queries oracle "B" c hc
    · revert hc
      rcases (gl7_read_temperature oracle "A").1 with - | q
      · exact ih c
      · by_cases hq : q ≤ 4
        · simp [hq]
        · simp only [hq, if_false]; exact ih c

/-- The stage-6 monitoring loop only issues queries. -/
theorem stage6_loop_queries (oracle : HOracle) :
    ∀ k, ∀ c ∈ stage6_loop oracle k, c.isQuery = true := by
  intro k
  induction k with
  | zero => intro c hc; simp [stage6_loop] at hc
  | succ k ih =>
    intro c hc
    rw [stage6_loop, List.append_assoc, List.mem_append, List.mem_append] at hc
    rcases hc with hc | hc | hc
    · exact gl7_read_temperature_queries oracle "A" c hc
    · exact gl7_read_temperature_queries oracle "B" c hc
    · revert hc
      rcases (gl7_read_temperature oracle "B").1 with - | q
      · exact ih c
      · by_cases hq : q ≤ 2
        · simp [hq]
        · simp only [hq, if_false]; exact ih c

/-- The stage-8 monitoring loop only issues queries. -/
theorem stage8_loop_queries (oracle : HOracle) :
    ∀ k, ∀ c ∈ stage8_loop oracle k, c.isQuery = true := by
  intro k
  induction k with
  | zero => intro c hc; simp [stage8_loop] at hc
  | succ k ih =>
    intro c hc
    rw [stage8_loop, List.append_assoc, List.append_assoc, List.mem_append,
      List.mem_append, List.mem_append] at hc
    rcases hc with hc | hc | hc | hc
    · exact gl7_read_temperature_queries oracle "A" c hc
    · exact gl7_read_temperature_queries oracle "B" c hc
    · exact gl7_read_temperature_queries oracle "C" c hc
    · revert hc
      rcases (gl7_read_temperature oracle "C").1 with - | q
      · exact ih c
      · by_cases hq : q < 1 / 2
        · intro hc
          simp only [if_pos hq] at hc
          simp at hc
        · simp only [if_neg hq]
          exact ih c

/-- Splitting a forall-membership goal across a list append. -/
theorem forall_mem_append {α : Type} {P : α → Prop} {l1 l2 : List α}
    (h1 : ∀ c ∈ l1, P c) (h2 : ∀ c ∈ l2, P c) : ∀ c ∈ l1 ++ l2, P c := by
  intro c hc
  rcases List.mem_append.mp hc with h | h
  · exact h1 c h
  · exact h2 c h

/-- Every command `start_gl7_sequence` sends is a query: all of its
actuation commands are commented out in the source. -/
theorem start_gl7_sequence_queries (oracle : HOracle) :
    ∀ c ∈ (start_gl7_sequence oracle).2, c.isQuery = true := by
  have lit : ∀ c ∈ [HCmd.analogQ 3, HCmd.analogQ 4], HCmd.isQuery c = true := by
    decide
  have rel : ∀ n : ℕ, ∀ c ∈ query_relay_status_cmds n, HCmd.isQuery c = true := by
    intro n c hc
    simp [query_relay_status_cmds] at hc
    rcases hc with h | h <;> subst h <;> rfl
  have snap : ∀ c ∈ (gl7_read_temperature oracle "A").2 ++
      (gl7_read_temperature oracle "B").2 ++
      (gl7_read_temperature oracle "C").2 ++
      query_relay_status_cmds 1 ++ query_relay_status_cmds 2 ++
      [HCmd.analogQ 3, HCmd.analogQ 4], HCmd.isQuery c = true :=
    forall_mem_append (forall_mem_append (forall_mem_append (forall_mem_append
      (forall_mem_append (gl7_read_temperature_queries oracle "A")
        (gl7_read_temperature_queries oracle "B"))
      (gl7_read_temperature_queries oracle "C")) (rel 1)) (rel 2)) lit
  intro c hc
  simp only [start_gl7_sequence] at hc
  exact forall_mem_append (forall_mem_append (forall_mem_append
    (forall_mem_append (forall_mem_append (forall_mem_append snap
      (stage2_loop_queries oracle 3)) (gl7_read_temperature_queries oracle "A"))
    (stage4_loop_queries oracle 5)) (stage6_loop_queries oracle 3))
    (stage8_loop_queries oracle 3)) snap c hc

/-- A parsed Python int comes from a non-empty string. -/
theorem pyInt_ne_empty {s : String} {n : ℤ} (h : pyInt s = some n) :
    s ≠ "" := by
  intro hs
  rw [hs, show pyInt "" = none from rfl] at h
  exact Option.noConfusion h

/-- A parsed Python float comes from a non-empty string. -/
theorem pyFloat_ne_empty {s : String} {q : ℚ} (h : pyFloat s = some q) :
    s ≠ "" := by
  intro hs
  rw [hs, show pyFloat "" = none from rfl] at h
  exact Option.noConfusion h

/-- C1: on every channel read that performs the per-channel status check
(i.e. every input except the head inputs A/C), if the `RDGST?` response
parses to an integer with bit 5 (value 32) set, `read_temperature` returns
`"T_OVER"` without even issuing the Kelvin query — so no numeric temperature
value can be returned, whatever the numeric payload would have been. -/
theorem status_bit_forces_over_range (oracle : SerialOracle) (inp : PyInput)
    (s : String) (n : ℤ) (hHead : isHeadInput inp = false)
    (hResp : oracle ("RDGST? " ++ tempChannelIdentifier inp) = some s)
    (hParse : pyInt s = some n) (hBit : Int.land n 32 ≠ 0) :
    read_temperature oracle inp =
      (Reading.tOver, ["RDGST? " ++ tempChannelIdentifier inp]) := by
  have hstatus : statusSaysOver oracle (tempChannelIdentifier inp) = true := by
    unfold statusSaysOver
    rw [hResp]
    simp [pyInt_ne_empty hParse, hParse, hBit]
  unfold read_temperature
  simp [hHead, hstatus]

/-- Witness for C1: with a status response of `"32"` on channel 4 and an
apparently valid Kelvin payload everywhere, input D reads `"T_OVER"`. -/
theorem status_bit_forces_over_range_witness :
    read_temperature oracle_status32 (.str "D") =
      (Reading.tOver, ["RDGST? " ++ tempChannelIdentifier (.str "D")]) :=
  status_bit_forces_over_range oracle_status32 (.str "D") "32" 32
    (by decide) (by decide) (by decide) (by decide)

/-- C2 counterexample: aborting the GL7 sequence (here: after its first nine
commands, on a dead transport) does NOT leave every heater output at 0 % —
a device that entered the run with output 1 at 75 % still shows 75 % after
the abort, because the `KeyboardInterrupt` handler sends nothing. -/
theorem abort_leaves_heater_powered :
    (Device.applyAll d75 (gl7_run_aborted oracle0 9)).moutLevel 1 = 75 ∧
    ¬ (Device.applyAll d75 (gl7_run_aborted oracle0 9)).moutLevel 1 = 0 := by
  decide

/-- C2 amended: on operator abort the `KeyboardInterrupt` handler of
`--start-gl7` issues no command at all ("All systems remain in their current
state"), so every heater output keeps its pre-abort level no matter when the
abort arrives; `emergency_stop_all_heaters` — which does force outputs 1 and
2 to 0 % — is not invoked on abort but only by the explicit stop commands. -/
theorem abort_preserves_heater_levels (oracle : HOracle) (k : ℕ) (d : Device) :
    gl7_abort_handler_cmds = [] ∧
    Device.applyAll d (gl7_run_aborted oracle k) = d ∧
    (Device.applyAll d (emergency_stop_all_heaters oracle).2).moutLevel 1 = 0 ∧
    (Device.applyAll d (emergency_stop_all_heaters oracle).2).moutLevel 2 = 0 := by
  refine ⟨rfl, ?_, ?_, ?_⟩
  · refine Device.applyAll_of_queries ?_ d
    intro c hc
    simp only [gl7_run_aborted, gl7_abort_handler_cmds, List.append_nil] at hc
    exact start_gl7_sequence_queries oracle c (List.take_subset k _ hc)
  · simp [emergency_stop_all_heaters, turn_off_heater, query_heater_status_cmds,
      query_heater_output_status, Device.applyAll, Device.apply]
  · simp [emergency_stop_all_heaters, turn_off_heater, query_heater_status_cmds,
      query_heater_output_status, Device.applyAll, Device.apply]

/-- C3 counterexample: `set_heater_mode_and_power` with the out-of-range
power 150 % is not rejected — it sends both the mode-set and the level-set
command and reports success. -/
theorem set_level_out_of_range_sends_commands :
    set_heater_mode_and_power oracle0 1 150 3 =
      (true, [HCmd.outmode 1 3 0 0, HCmd.mout 1 150]) ∧
    (set_heater_mode_and_power oracle0 1 150 3).2 ≠ [] := by
  decide

/-- C3 amended: the `0 ≤ percent ≤ 100` validation lives only in the CLI
entry points (`heaters.py` argument parsing, `main.py --heaters`), which
reject an out-of-range power before any communication;
`set_heater_mode_and_power` itself issues `OUTMODE` and `MOUT` for any
percent whatsoever and returns `True`. -/
theorem out_of_range_rejected_only_in_cli (oracle : HOracle) (out : ℕ)
    (p : ℚ) (h : p < 0 ∨ 100 < p) :
    cli_power_rejected p = true ∧
    set_heater_mode_and_power oracle out p 3 =
      (true, [HCmd.outmode out 3 0 0, HCmd.mout out p]) := by
  constructor
  · rcases h with h | h <;> simp [cli_power_rejected, h]
  · rfl

/-- Witness for C3 (amended): at 150 % the CLI layers reject while the
controller method still sends both commands. -/
theorem out_of_range_rejected_only_in_cli_witness :
    cli_power_rejected 150 = true ∧
    set_heater_mode_and_power oracle0 1 150 3 =
      (true, [HCmd.outmode 1 3 0 0, HCmd.mout 1 150]) :=
  out_of_range_rejected_only_in_cli oracle0 1 150 (Or.inr (by norm_num))

/-- C4: on a transport where the mode-set command is delivered but the
level-set `MOUT` hits a communication error (which `send_command` swallows,
returning `None`), `set_heater_mode_and_power` still returns `True` — the
partial set is reported as success, contradicting its own docstring
("False if any errors") and the spec's requirement that a partial mode/level
set be surfaced as an error. It does not retry (each command is sent once). -/
theorem failed_level_set_reported_as_success :
    level_set_fail_oracle (HCmd.outmode 1 3 0 0) = some "" ∧
    level_set_fail_oracle (HCmd.mout 1 50) = none ∧
    set_heater_mode_and_power level_set_fail_oracle 1 50 3 =
      (true, [HCmd.outmode 1 3 0 0, HCmd.mout 1 50]) := by
  decide

/-- C5 counterexample: the 4-head calibration RAISES `ValueError` on a
non-positive raw value (here 0 Ω) instead of returning a "no temperature"
sentinel. -/
theorem head4_raises_on_zero_resistance :
    convert_resistance_to_temperature [300, 10, 4] [5000, 1100, 1050] 0 =
      Except.error "Resistance must be a positive number" := by
  decide

/-- C5 amended: for a non-positive raw value, only the pump table
(`voltage_to_temperature`) returns the `None` sentinel; the 4-head table
raises `ValueError` instead, and the 3-head table performs no check at all
and returns a clamped numeric temperature. (Finiteness is checked nowhere.) -/
theorem nonpositive_raw_calibration_behaviour
    (temperatures resistances : List ℚ) (r : ℚ) (hr : r ≤ 0)
    (h2 : 2 ≤ temperatures.length) :
    voltage_to_temperature temperatures resistances r = none ∧
    convert_resistance_to_temperature temperatures resistances r =
      Except.error "Resistance must be a positive number" ∧
    ∃ t, resistance_to_temperature temperatures resistances r = some t := by
  have hlen : ¬ temperatures.length < 2 := by omega
  refine ⟨?_, ?_, ?_⟩
  · simp [voltage_to_temperature, hr]
  · simp [convert_resistance_to_temperature, hlen, hr]
  · unfold resistance_to_temperature
    rw [if_neg hlen]
    exact ⟨_, rfl⟩

/-- Witness for C5 (amended) at raw value −1 on the demonstration table. -/
theorem nonpositive_raw_calibration_behaviour_witness :
    voltage_to_temperature [300, 10, 4] [5000, 1100, 1050] (-1) = none ∧
    convert_resistance_to_temperature [300, 10, 4] [5000, 1100, 1050] (-1) =
      Except.error "Resistance must be a positive number" ∧
    ∃ t, resistance_to_temperature [300, 10, 4] [5000, 1100, 1050] (-1) =
      some t :=
  nonpositive_raw_calibration_behaviour [300, 10, 4] [5000, 1100, 1050] (-1)
    (by norm_num) (by decide)

/-- C6 counterexample: `turn_off_heater` and `set_heater_mode_and_power _ 0`
issue different command sequences (no `OUTMODE` in the former), and from a
device in control mode 5 they leave different states: `turn_off_heater`
keeps mode 5 while `set_level(_, 0)` re-programs mode 3. -/
theorem turn_off_differs_from_set_level_zero :
    (turn_off_heater oracle0 1).2 ≠ (set_heater_mode_and_power oracle0 1 0 3).2 ∧
    (Device.applyAll dMode5 (turn_off_heater oracle0 1).2).outMode 1 = 5 ∧
    (Device.applyAll dMode5 (set_heater_mode_and_power oracle0 1 0 3).2).outMode 1
      = 3 := by
  decide

/-- C6 amended: `turn_off_heater out` issues only `MOUT out,0.0`; it zeroes
that output's power exactly as `set_level(out, 0)` does, touches no other
output (so its correctness is independent of any other actuator's state),
but leaves the control mode unchanged — the two calls coincide exactly when
the output is already in open-loop mode 3. -/
theorem turn_off_only_zeroes_level (oracle : HOracle) (out : ℕ) (d : Device) :
    (turn_off_heater oracle out).2 = [HCmd.mout out 0] ∧
    (Device.applyAll d (turn_off_heater oracle out).2).moutLevel out = 0 ∧
    (Device.applyAll d (set_heater_mode_and_power oracle out 0 3).2).moutLevel out
      = 0 ∧
    (d.outMode out = 3 →
      Device.applyAll d (turn_off_heater oracle out).2 =
        Device.applyAll d (set_heater_mode_and_power oracle out 0 3).2) ∧
    (∀ o, o ≠ out →
      (Device.applyAll d (turn_off_heater oracle out).2).moutLevel o =
        d.moutLevel o ∧
      (Device.applyAll d (turn_off_heater oracle out).2).outMode o =
        d.outMode o) := by
  refine ⟨rfl, by simp [turn_off_heater, Device.applyAll, Device.apply],
    by simp [set_heater_mode_and_power, Device.applyAll, Device.apply],
    ?_, ?_⟩
  · intro hmode
    ext o
    · simp [turn_off_heater, set_heater_mode_and_power, Device.applyAll,
        Device.apply]
    · simp only [turn_off_heater, set_heater_mode_and_power, Device.applyAll,
        List.foldl, Device.apply]
      by_cases ho : o = out
      · subst ho; simp [hmode]
      · simp [ho]
  · intro o ho
    constructor
    · simp [turn_off_heater, Device.applyAll, Device.apply, ho]
    · simp [turn_off_heater, Device.applyAll, Device.apply]

/-- Witness for C6 (amended): from a mode-3 device the two paths agree, and
`turn_off_heater` zeroes the output. -/
theorem turn_off_only_zeroes_level_witness :
    Device.applyAll dMode3 (turn_off_heater oracle0 1).2 =
      Device.applyAll dMode3 (set_heater_mode_and_power oracle0 1 0 3).2 ∧
    (Device.applyAll dMode3 (turn_off_heater oracle0 1).2).moutLevel 1 = 0 := by
  obtain ⟨-, h2, -, h4, -⟩ := turn_off_only_zeroes_level oracle0 1 dMode3
  exact ⟨h4 rfl, h2⟩

/-- C7: on the table {(300 K, 5000 Ω), (10 K, 1100 Ω), (4 K, 1050 Ω)} the
interpolator sorts the samples ascending by resistance, brackets 1075 Ω
between (1050 Ω, 4 K) and (1100 Ω, 10 K), and returns exactly
4 + (1075−1050)/(1100−1050)·(10−4) = 7 K. -/
theorem interpolate_demo_table :
    sortPairs ([5000, 1100, 1050].zip [300, 10, 4]) =
      [(1050, 4), (1100, 10), (5000, 300)] ∧
    convert_resistance_to_temperature [300, 10, 4] [5000, 1100, 1050] 1075 =
      Except.ok (4 + (1075 - 1050) / (1100 - 1050) * (10 - 4)) ∧
    (4 + (1075 - 1050) / (1100 - 1050) * (10 - 4) : ℚ) = 7 := by
  decide

/-- C8: on every channel whose identifier is one of the designated
zero-is-fault special inputs D2-D5, a Kelvin payload parsing to exactly 0.0
(with a clean status and an uncorrupted response) yields `"T_OVER"`, never
the value 0.0. -/
theorem zero_reading_special_input_over_range (oracle : SerialOracle)
    (inp : PyInput) (r : String)
    (hHead : isHeadInput inp = false)
    (hCh : ["D2", "D3", "D4", "D5"].contains
      (pyUpper (tempChannelIdentifier inp)) = true)
    (hStatus : statusSaysOver oracle (tempChannelIdentifier inp) = false)
    (hResp : oracle ("KRDG? " ++ tempChannelIdentifier inp) = some r)
    (hCorrupt : corruptResponse r = false)
    (hParse : pyFloat r = some 0) :
    read_temperature oracle inp =
      (Reading.tOver, ["RDGST? " ++ tempChannelIdentifier inp,
        "KRDG? " ++ tempChannelIdentifier inp]) := by
  have hMem : pyUpper (tempChannelIdentifier inp) = "D2" ∨
      pyUpper (tempChannelIdentifier inp) = "D3" ∨
      pyUpper (tempChannelIdentifier inp) = "D4" ∨
      pyUpper (tempChannelIdentifier inp) = "D5" := by
    simpa [List.contains] using hCh
  unfold read_temperature
  rcases hMem with h | h | h | h <;>
    simp [hHead, hStatus, hResp, pyFloat_ne_empty hParse, hCorrupt, hParse, h]

/-- Witness for C8: special input D3 with a clean status `"0"` and Kelvin
payload `"0.0"` reads `"T_OVER"`. -/
theorem zero_reading_special_input_over_range_witness :
    read_temperature oracle_d3_zero (.str "D3") =
      (Reading.tOver, ["RDGST? D3", "KRDG? D3"]) :=
  (zero_reading_special_input_over_range oracle_d3_zero (.str "D3") "0.0"
    (by decide) (by decide) (by decide) (by decide) (by decide)
    (by decide)).trans (by decide)

/-- C9: a read on a head channel (upper-cased A or C) is exactly
`read_resistance` — it issues the single resistance query `SRDG?`, not the
Kelvin query — and the step-3 calibrated path applies the calibration
interpolator exactly once to that reading, agreeing with calling the
interpolator directly on the returned resistance. -/
theorem head_channel_resistance_single_conversion (oracle : SerialOracle)
    (s : String) (hHead : isHeadInput (.str s) = true) :
    read_temperature oracle (.str s) = read_resistance oracle (.str s) ∧
    (read_temperature oracle (.str s)).2 = ["SRDG? " ++ pyUpper s] ∧
    ∀ (temperatures resistances : List ℚ) (r : ℚ), 0 < r →
      2 ≤ temperatures.length →
      step3_head_calibrated temperatures resistances (Reading.value r) =
        some (Except.ok
          (interpPts (sortPairs (resistances.zip temperatures)) r)) := by
  have hAC : pyUpper s = "A" ∨ pyUpper s = "C" := by
    simpa [isHeadInput, List.contains] using hHead
  have hid : srdgChannelIdentifier (.str s) = pyUpper s := by
    rcases hAC with h | h <;> simp [srdgChannelIdentifier, h]
  refine ⟨by simp [read_temperature, hHead], ?_, ?_⟩
  · simp [read_temperature, hHead, read_resistance, hid]
  · intro temperatures resistances r hr hlen
    have hlen2 : ¬ temperatures.length < 2 := by omega
    have hr2 : ¬ r ≤ 0 := not_le.mpr hr
    simp [step3_head_calibrated, hr, convert_resistance_to_temperature,
      hlen2, hr2]

/-- Witness for C9: input C answering `1075.0` to `SRDG? C`, piped through
the step-3 calibrated path on the demonstration table, gives the same 7 K as
direct interpolation. -/
theorem head_channel_resistance_single_conversion_witness :
    (read_temperature oracle_head_c (.str "C")).2 = ["SRDG? C"] ∧
    step3_head_calibrated [300, 10, 4] [5000, 1100, 1050]
      (Reading.value 1075) = some (Except.ok 7) := by
  obtain ⟨-, h2, h3⟩ :=
    head_channel_resistance_single_conversion oracle_head_c "C" (by decide)
  refine ⟨h2.trans (by decide), ?_⟩
  rw [h3 [300, 10, 4] [5000, 1100, 1050] 1075 (by norm_num) (by decide)]
  decide

/-- C10: `read_temperature` queries input D (either case) under channel
identifier "4" — both the status query and the Kelvin query — while input B,
the special inputs D2-D5 and numeric channels are queried under their own
identifiers. -/
theorem input_d_maps_to_channel_four :
    tempChannelIdentifier (.str "D") = "4" ∧
    tempChannelIdentifier (.str "d") = "4" ∧
    tempChannelIdentifier (.str "B") = "B" ∧
    tempChannelIdentifier (.str "b") = "B" ∧
    tempChannelIdentifier (.str "D2") = "D2" ∧
    tempChannelIdentifier (.str "D3") = "D3" ∧
    tempChannelIdentifier (.str "D4") = "D4" ∧
    tempChannelIdentifier (.str "D5") = "D5" ∧
    (∀ n : ℕ, tempChannelIdentifier (.nat n) = toString n) ∧
    ∀ oracle : SerialOracle,
      (read_temperature oracle (.str "D")).2 =
        if statusSaysOver oracle "4" then ["RDGST? 4"]
        else ["RDGST? 4", "KRDG? 4"] := by
  refine ⟨by decide, by decide, by decide, by decide, by decide, by decide,
    by decide, by decide, fun n => rfl, ?_⟩
  intro oracle
  have hD : tempChannelIdentifier (.str "D") = "4" := by decide
  unfold read_temperature
  rw [show isHeadInput (.str "D") = false from by decide]
  simp only [hD, Bool.false_eq_true, if_false]
  by_cases h : statusSaysOver oracle "4" <;> simp [h]

end Lakeshore
